import Mathlib

/-!
Shallow embedding of `src/brewfile_backup.py` (Homebrew Brewfile → GitHub
Gist backup script) and verification of the specification claims about
its change-detection / idempotent-upsert orchestration.

Correspondence of names: the spec speaks of `remote_id` / `remote_url` /
`content_digest` / `last_backup_at`; the source stores these under the JSON
keys `gist_id` / `gist_url` / `last_hash` / `last_backup`.  External
effects (subprocesses, HTTP, filesystem errors, clock) are modelled as
explicit outcome inputs to the run; the decision logic itself is
translated line by line from `run_backup` (lines 971-1084) and the
collaborator classes `GitHubAuth`, `BrewfileGenerator`, `GistManager`,
`ConfigManager`.
-/

set_option autoImplicit false

namespace BrewfileBackup

/-! Exit codes, source lines 67-72. -/

def EXIT_SUCCESS : Nat := 0
def EXIT_AUTH_ERROR : Nat := 1
def EXIT_BREW_ERROR : Nat := 2
def EXIT_API_ERROR : Nat := 3
def EXIT_CONFIG_ERROR : Nat := 4
def EXIT_UNKNOWN_ERROR : Nat := 99

/-- A parsed JSON object with string values, as produced by `json.load` on
the config file: an association list with pairwise-distinct keys, in
insertion order.  All values the script itself ever reads or writes are
strings. -/
abbrev Config := List (String × String)

/-- Python `d.get(k)`: the value stored under key `k`, or `none`. -/
def dget (d : Config) (k : String) : Option String :=
  (d.find? (fun p => p.1 == k)).map (fun p => p.2)

/-- One step of Python `dict.update`: setting key `k` to `v` replaces the
value in place when the key is present and appends the pair otherwise. -/
def dsetOne (d : Config) (k v : String) : Config :=
  if d.any (fun p => p.1 == k) then
    d.map (fun p => if p.1 == k then (k, v) else p)
  else
    d ++ [(k, v)]

/-- Python `config.update(kwargs)` (source line 878): fold `dsetOne` over
the keyword arguments. -/
def dictUpdate (d : Config) (kvs : List (String × String)) : Config :=
  kvs.foldl (fun acc kv => dsetOne acc kv.1 kv.2) d

/-- Python truthiness of `config.get(k)`: `None` and the empty string are
falsy, every other string is truthy. -/
def truthy : Option String → Bool
  | some s => s != ""
  | none => false

/-- Content of the state file on disk before parsing: missing, present but
not valid JSON, valid JSON whose top-level value is not an object, or a
JSON object (already deduplicated by `json.load`). -/
inductive FileState where
  | absent
  | invalidJson (raw : String)
  | jsonNonDict (raw : String)
  | jsonDict (entries : Config)
  deriving DecidableEq, Repr

/-- The slice of the filesystem the script writes: the config file
`config.json` and its sibling temporary file `config.tmp`. -/
structure Fs where
  configFile : FileState
  tempFile : Option Config
  deriving DecidableEq, Repr

namespace ConfigManager

/-- `ConfigManager.load` (source lines 753-797): a missing file, invalid
JSON, a non-dict top level, or any read error all yield the empty config;
a parsed dict is returned as is.  The function never raises. -/
def load : FileState → Config
  | .jsonDict d => d
  | _ => []

/-- Where, if anywhere, `ConfigManager.save` (source lines 799-854) fails:
`dirFail` is `_ensure_config_dir` raising before the temp file is touched,
`writeFail` an exception while writing/flushing the temp file, `renameFail`
an exception at `temp_file.replace(self.config_file)`, and `chmodFail` an
exception at the `os.chmod` that follows the (already completed) rename. -/
inductive SaveOutcome where
  | ok
  | dirFail
  | writeFail
  | renameFail
  | chmodFail
  deriving DecidableEq, Repr

/-- `ConfigManager.save` (source lines 799-854).  Returns whether the call
succeeded (`false` means it raised `ConfigurationError`) and the resulting
filesystem.  On `writeFail`/`renameFail` the except-block unlinks the temp
file and the config file is untouched; on `chmodFail` the rename has
already atomically installed the new record (the temp file no longer
exists), yet the call still raises. -/
def save (config : Config) (out : SaveOutcome) (fs : Fs) : Bool × Fs :=
  match out with
  | .ok => (true, { configFile := .jsonDict config, tempFile := none })
  | .dirFail => (false, fs)
  | .writeFail => (false, { configFile := fs.configFile, tempFile := none })
  | .renameFail => (false, { configFile := fs.configFile, tempFile := none })
  | .chmodFail => (false, { configFile := .jsonDict config, tempFile := none })

/-- `ConfigManager.update` (source lines 856-880): re-load the config from
disk, merge the keyword arguments into it with `dict.update`, and save the
merged dict.  Also returns the merged dict that was handed to `save`. -/
def update (fs : Fs) (out : SaveOutcome) (kwargs : List (String × String)) :
    Bool × Fs × Config :=
  let config := load fs.configFile
  let merged := dictUpdate config kwargs
  let r := save merged out fs
  (r.1, r.2, merged)

end ConfigManager

namespace GistManager

/-- Outcome of one HTTP request as seen by the client code: a response
with some status code, a `requests` timeout, or another network error
(`RequestException`). -/
inductive HttpOutcome where
  | status (code : Nat)
  | timeout
  | netError
  deriving DecidableEq, Repr

/-- `GistManager.gist_exists` (source lines 596-643): `true` on HTTP 200;
`false` on 404, on every other status code, on timeout and on any network
error.  The function never raises (totality of this definition). -/
def gist_exists : HttpOutcome → Bool
  | .status code => code == 200
  | .timeout => false
  | .netError => false

/-- Outcome of the `POST /gists` request of `create_gist`: a response
carrying a status code together with the `id` and `html_url` fields of its
JSON body, or a timeout / network error. -/
inductive CreateOutcome where
  | response (code : Nat) (id url : String)
  | timeout
  | netError
  deriving DecidableEq, Repr

/-- `GistManager.create_gist` (source lines 488-545): on HTTP 201 returns
the pair `(id, html_url)` from the response body; every other status code
reaches `_handle_api_error`, which always raises `GistAPIError`, and
timeouts / network errors raise `GistAPIError` as well — all modelled as
`none`. -/
def create_gist : CreateOutcome → Option (String × String)
  | .response code id url => if code == 201 then some (id, url) else none
  | .timeout => none
  | .netError => none

/-- `GistManager.update_gist` (source lines 547-594): succeeds exactly on
HTTP 200; every other status code, timeout or network error raises
`GistAPIError` (modelled as `false`). -/
def update_gist : HttpOutcome → Bool
  | .status code => code == 200
  | .timeout => false
  | .netError => false

end GistManager

/-- All external inputs of one invocation of `run_backup` (source lines
971-1084): the prior filesystem, the outcomes of every fallible
collaborator call, the two CLI flags, and the timestamp `datetime.utcnow`
would produce.  `tokenResult = none` means `GitHubAuth.get_token` raised
`AuthenticationError`; `genResult = none` means `BrewfileGenerator.generate`
raised `BrewfileGenerationError`, otherwise it is the `(content, sha256)`
pair; `ctorFail` means `ConfigManager()` raised `ConfigurationError` from
`_ensure_config_dir`; `sessionUnexpected` means an exception outside the
modelled taxonomy escaped at `GistManager(token)` construction and fell
through to the outer `except Exception` handler. -/
structure RunInput where
  fs : Fs
  ctorFail : Bool
  tokenResult : Option String
  genResult : Option (String × String)
  force : Bool
  dryRun : Bool
  sessionUnexpected : Bool
  existsOutcome : GistManager.HttpOutcome
  updateOutcome : GistManager.HttpOutcome
  createOutcome : GistManager.CreateOutcome
  saveOutcome : ConfigManager.SaveOutcome
  now : String
  deriving DecidableEq, Repr

/-- Terminal of one run of the orchestrator. -/
inductive Terminal where
  | skippedNoChange
  | skippedDryRun
  | done (gistId gistUrl : String)
  | failedAuth
  | failedGen
  | failedApi
  | failedState
  | failedUnexpected
  deriving DecidableEq, Repr

/-- Observable result of one run: the process exit code, which terminal
was reached, the filesystem afterwards, which remote operations were
actually invoked, and (when the persist step was reached) the merged
record handed to `ConfigManager.save`. -/
structure RunResult where
  exitCode : Nat
  terminal : Terminal
  fs : Fs
  existsCalled : Bool
  updateCalled : Bool
  createCalled : Bool
  savedConfig : Option Config
  deriving DecidableEq, Repr

/-- The persist step of `run_backup` (source lines 1057-1063 feeding
`ConfigManager.update`, plus the surrounding success return and the outer
`except ConfigurationError` handler at lines 1079-1081). -/
def persist (inp : RunInput) (gid gurl currentHash : String)
    (existsC updateC createC : Bool) : RunResult :=
  let r := ConfigManager.update inp.fs inp.saveOutcome
    [("gist_id", gid), ("gist_url", gurl),
     ("last_hash", currentHash), ("last_backup", inp.now)]
  if r.1 then
    { exitCode := EXIT_SUCCESS, terminal := .done gid gurl, fs := r.2.1,
      existsCalled := existsC, updateCalled := updateC, createCalled := createC,
      savedConfig := some r.2.2 }
  else
    { exitCode := EXIT_CONFIG_ERROR, terminal := .failedState, fs := r.2.1,
      existsCalled := existsC, updateCalled := updateC, createCalled := createC,
      savedConfig := some r.2.2 }

/-- The create path of `run_backup` (source lines 1049-1055 and the
`except GistAPIError` handler at 1075-1077): call `create_gist`; on
success persist the fresh `(id, url)`, on `GistAPIError` return
`EXIT_API_ERROR`.  `existsC` records whether the existence check was
performed before falling into this path. -/
def createFlow (inp : RunInput) (currentHash : String) (existsC : Bool) : RunResult :=
  match GistManager.create_gist inp.createOutcome with
  | some (gid, gurl) => persist inp gid gurl currentHash existsC false true
  | none =>
    { exitCode := EXIT_API_ERROR, terminal := .failedApi, fs := inp.fs,
      existsCalled := existsC, updateCalled := false, createCalled := true,
      savedConfig := none }

/-- The body of `run_backup` after the prior config has been read once
(source line 996 binds `config`; lines 998-1084), translated branch by
branch: authenticate (1000-1004); generate the Brewfile (1008-1013);
digest compare `if not force and last_hash == current_hash` (1019-1023);
dry-run gate (1030-1034); `GistManager(token)` (1038); target resolution
`if gist_id and gist_manager.gist_exists(gist_id)` with Python
short-circuit and truthiness (1044); update path reusing the stored
`gist_url` with an f-string default (1045-1048); create path (1049-1055);
persist (1057-1073); `except GistAPIError` → `EXIT_API_ERROR` (1075-1077);
`except Exception` → `EXIT_UNKNOWN_ERROR` (1082-1084). -/
def runAfterLoad (inp : RunInput) (config : Config) : RunResult :=
  match inp.tokenResult with
  | none =>
    { exitCode := EXIT_AUTH_ERROR, terminal := .failedAuth, fs := inp.fs,
      existsCalled := false, updateCalled := false, createCalled := false,
      savedConfig := none }
  | some _token =>
    match inp.genResult with
    | none =>
      { exitCode := EXIT_BREW_ERROR, terminal := .failedGen, fs := inp.fs,
        existsCalled := false, updateCalled := false, createCalled := false,
        savedConfig := none }
    | some (_content, currentHash) =>
      if !inp.force && (dget config "last_hash" == some currentHash) then
        { exitCode := EXIT_SUCCESS, terminal := .skippedNoChange, fs := inp.fs,
          existsCalled := false, updateCalled := false, createCalled := false,
          savedConfig := none }
      else if inp.dryRun then
        { exitCode := EXIT_SUCCESS, terminal := .skippedDryRun, fs := inp.fs,
          existsCalled := false, updateCalled := false, createCalled := false,
          savedConfig := none }
      else if inp.sessionUnexpected then
        { exitCode := EXIT_UNKNOWN_ERROR, terminal := .failedUnexpected, fs := inp.fs,
          existsCalled := false, updateCalled := false, createCalled := false,
          savedConfig := none }
      else
        if truthy (dget config "gist_id") then
          if GistManager.gist_exists inp.existsOutcome then
            if GistManager.update_gist inp.updateOutcome then
              persist inp ((dget config "gist_id").getD "")
                ((dget config "gist_url").getD
                  ("https://gist.github.com/" ++ (dget config "gist_id").getD ""))
                currentHash true true false
            else
              { exitCode := EXIT_API_ERROR, terminal := .failedApi, fs := inp.fs,
                existsCalled := true, updateCalled := true, createCalled := false,
                savedConfig := none }
          else
            createFlow inp currentHash true
        else
          createFlow inp currentHash false

/-- `run_backup` (source lines 971-1084): construct `ConfigManager`
(possibly raising from `_ensure_config_dir`, caught by the
`except ConfigurationError` handler at 1079-1081), load the prior config
once (996), then run the decision logic on it. -/
def run_backup (inp : RunInput) : RunResult :=
  if inp.ctorFail then
    { exitCode := EXIT_CONFIG_ERROR, terminal := .failedState, fs := inp.fs,
      existsCalled := false, updateCalled := false, createCalled := false,
      savedConfig := none }
  else
    runAfterLoad inp (ConfigManager.load inp.fs.configFile)

/-! Lemmas about the Python-dict operations. -/

theorem dget_map_replace (t : Config) (k v k' : String) (hk : (k' == k) = false) :
    dget (t.map (fun p => if p.1 == k then (k, v) else p)) k' = dget t k' := by
  induction t with
  | nil => rfl
  | cons p t ih =>
    cases hp : (p.1 == k) with
    | true =>
      have hpk : p.1 = k := eq_of_beq hp
      have hp' : (p.1 == k') = false := by
        rw [hpk]
        exact beq_false_of_ne (fun h => by simp [h] at hk)
      have hkk' : (k == k') = false :=
        beq_false_of_ne (fun h => by simp [h] at hk)
      simp only [List.map_cons, hp, if_true, dget, List.find?, hp', hkk'] at ih ⊢
      exact ih
    | false =>
      cases hq : (p.1 == k') with
      | true => simp [dget, List.find?, hp, hq]
      | false =>
        simp only [List.map_cons, hp, Bool.false_eq_true, if_false, dget,
          List.find?, hq] at ih ⊢
        exact ih

theorem dget_append_single (d : Config) (k v k' : String) :
    dget (d ++ [(k, v)]) k' = ((dget d k').or (cond (k == k') (some v) none)) := by
  induction d with
  | nil =>
    cases hq : (k == k') with
    | true => simp [dget, List.find?, hq]
    | false => simp [dget, List.find?, hq]
  | cons p t ih =>
    cases hq : (p.1 == k') with
    | true => simp [dget, List.find?, hq]
    | false =>
      simp only [List.cons_append, dget, List.find?, hq] at ih ⊢
      exact ih

theorem dget_none_of_any_false (d : Config) (k : String)
    (ha : (d.any (fun p => p.1 == k)) = false) : dget d k = none := by
  induction d with
  | nil => rfl
  | cons p t ih =>
    rw [List.any_cons, Bool.or_eq_false_iff] at ha
    simp only [dget, List.find?, ha.1] at ih ⊢
    exact ih ha.2

theorem dget_dsetOne_same (d : Config) (k v : String) :
    dget (dsetOne d k v) k = some v := by
  cases ha : (d.any (fun p => p.1 == k)) with
  | true =>
    simp only [dsetOne, ha, if_true]
    induction d with
    | nil => simp at ha
    | cons p t ih =>
      cases hp : (p.1 == k) with
      | true => simp [dget, List.find?, hp]
      | false =>
        rw [List.any_cons, hp, Bool.false_or] at ha
        simp only [List.map_cons, hp, Bool.false_eq_true, if_false, dget,
          List.find?] at ih ⊢
        exact ih ha
  | false =>
    simp only [dsetOne, ha, Bool.false_eq_true, if_false]
    rw [dget_append_single, dget_none_of_any_false d k ha]
    simp

theorem dget_dsetOne_other (d : Config) (k v k' : String) (hk : (k' == k) = false) :
    dget (dsetOne d k v) k' = dget d k' := by
  cases ha : (d.any (fun p => p.1 == k)) with
  | true =>
    simp only [dsetOne, ha, if_true]
    exact dget_map_replace d k v k' hk
  | false =>
    simp only [dsetOne, ha, Bool.false_eq_true, if_false]
    rw [dget_append_single]
    have hkk' : (k == k') = false :=
      beq_false_of_ne (fun h => by simp [h] at hk)
    rw [hkk']
    cases dget d k' <;> rfl

/-- The four-key merge performed by the persist step of the orchestrator. -/
def backupKwargs (gid gurl currentHash now : String) : List (String × String) :=
  [("gist_id", gid), ("gist_url", gurl),
   ("last_hash", currentHash), ("last_backup", now)]

theorem dget_update4 (d : Config) (gid gurl h now : String) :
    dget (dictUpdate d (backupKwargs gid gurl h now)) "gist_id" = some gid ∧
    dget (dictUpdate d (backupKwargs gid gurl h now)) "gist_url" = some gurl ∧
    dget (dictUpdate d (backupKwargs gid gurl h now)) "last_hash" = some h ∧
    dget (dictUpdate d (backupKwargs gid gurl h now)) "last_backup" = some now := by
  unfold dictUpdate backupKwargs
  simp only [List.foldl]
  refine ⟨?_, ?_, ?_, ?_⟩
  · rw [dget_dsetOne_other _ _ _ _ (by decide), dget_dsetOne_other _ _ _ _ (by decide),
      dget_dsetOne_other _ _ _ _ (by decide), dget_dsetOne_same]
  · rw [dget_dsetOne_other _ _ _ _ (by decide), dget_dsetOne_other _ _ _ _ (by decide),
      dget_dsetOne_same]
  · rw [dget_dsetOne_other _ _ _ _ (by decide), dget_dsetOne_same]
  · rw [dget_dsetOne_same]

theorem dget_update4_other (d : Config) (gid gurl h now k : String)
    (h1 : (k == "gist_id") = false) (h2 : (k == "gist_url") = false)
    (h3 : (k == "last_hash") = false) (h4 : (k == "last_backup") = false) :
    dget (dictUpdate d (backupKwargs gid gurl h now)) k = dget d k := by
  unfold dictUpdate backupKwargs
  simp only [List.foldl]
  rw [dget_dsetOne_other _ _ _ _ h4, dget_dsetOne_other _ _ _ _ h3,
    dget_dsetOne_other _ _ _ _ h2, dget_dsetOne_other _ _ _ _ h1]

/-! Helper lemmas about the orchestrator. -/

/-- Modelled from the spec (§6, "Exit codes: 0 success (including skip),
1 auth error, 2 artifact-generation error, 3 remote-API error, 4
local-state error, 99 unexpected error"): the exit code the spec assigns
to each terminal. -/
def specExitCode : Terminal → Nat
  | .skippedNoChange => 0
  | .skippedDryRun => 0
  | .done _ _ => 0
  | .failedAuth => 1
  | .failedGen => 2
  | .failedApi => 3
  | .failedState => 4
  | .failedUnexpected => 99

theorem gate_false_of (force : Bool) (lh : Option String) (h2 : String)
    (hgate : force = true ∨ lh ≠ some h2) :
    (!force && (lh == some h2)) = false := by
  rcases hgate with hf | hd
  · simp [hf]
  · simp [beq_eq_false_iff_ne, hd]

/-- Full characterization of the persist step by save outcome. -/
theorem persist_eq (inp : RunInput) (gid gurl h : String) (e u c : Bool) :
    persist inp gid gurl h e u c =
      (match inp.saveOutcome with
       | .ok =>
         { exitCode := EXIT_SUCCESS, terminal := .done gid gurl,
           fs := { configFile := .jsonDict (dictUpdate
             (ConfigManager.load inp.fs.configFile)
             (backupKwargs gid gurl h inp.now)), tempFile := none },
           existsCalled := e, updateCalled := u, createCalled := c,
           savedConfig := some (dictUpdate (ConfigManager.load inp.fs.configFile)
             (backupKwargs gid gurl h inp.now)) }
       | .dirFail =>
         { exitCode := EXIT_CONFIG_ERROR, terminal := .failedState, fs := inp.fs,
           existsCalled := e, updateCalled := u, createCalled := c,
           savedConfig := some (dictUpdate (ConfigManager.load inp.fs.configFile)
             (backupKwargs gid gurl h inp.now)) }
       | .writeFail =>
         { exitCode := EXIT_CONFIG_ERROR, terminal := .failedState,
           fs := { configFile := inp.fs.configFile, tempFile := none },
           existsCalled := e, updateCalled := u, createCalled := c,
           savedConfig := some (dictUpdate (ConfigManager.load inp.fs.configFile)
             (backupKwargs gid gurl h inp.now)) }
       | .renameFail =>
         { exitCode := EXIT_CONFIG_ERROR, terminal := .failedState,
           fs := { configFile := inp.fs.configFile, tempFile := none },
           existsCalled := e, updateCalled := u, createCalled := c,
           savedConfig := some (dictUpdate (ConfigManager.load inp.fs.configFile)
             (backupKwargs gid gurl h inp.now)) }
       | .chmodFail =>
         { exitCode := EXIT_CONFIG_ERROR, terminal := .failedState,
           fs := { configFile := .jsonDict (dictUpdate
             (ConfigManager.load inp.fs.configFile)
             (backupKwargs gid gurl h inp.now)), tempFile := none },
           existsCalled := e, updateCalled := u, createCalled := c,
           savedConfig := some (dictUpdate (ConfigManager.load inp.fs.configFile)
             (backupKwargs gid gurl h inp.now)) }) := by
  cases hs : inp.saveOutcome <;>
    simp [persist, ConfigManager.update, ConfigManager.save, hs, backupKwargs]

theorem createFlow_eq_some {inp : RunInput} {ch : String} {e : Bool} {gid gurl : String}
    (hcr : GistManager.create_gist inp.createOutcome = some (gid, gurl)) :
    createFlow inp ch e = persist inp gid gurl ch e false true := by
  unfold createFlow
  rw [hcr]

theorem createFlow_eq_none {inp : RunInput} {ch : String} {e : Bool}
    (hcr : GistManager.create_gist inp.createOutcome = none) :
    createFlow inp ch e =
      { exitCode := EXIT_API_ERROR, terminal := .failedApi, fs := inp.fs,
        existsCalled := e, updateCalled := false, createCalled := true,
        savedConfig := none } := by
  unfold createFlow
  rw [hcr]

/-! Claim theorems. -/

/-- C4: for every prior state whose stored `content_digest` (`last_hash`)
equals the digest of the freshly generated artifact, a run with
`force = false` terminates at SKIPPED with exit code 0 and the state file
is untouched: no write to the State Store occurs, the filesystem after
the run is the one before it. -/
theorem C4_idempotent_skip (inp : RunInput) (tok c h : String)
    (hctor : inp.ctorFail = false)
    (htok : inp.tokenResult = some tok)
    (hgen : inp.genResult = some (c, h))
    (hforce : inp.force = false)
    (hdig : dget (ConfigManager.load inp.fs.configFile) "last_hash" = some h) :
    (run_backup inp).exitCode = EXIT_SUCCESS ∧
    (run_backup inp).terminal = Terminal.skippedNoChange ∧
    (run_backup inp).fs = inp.fs ∧
    (run_backup inp).savedConfig = none := by
  unfold run_backup runAfterLoad
  simp [hctor, htok, hgen, hforce, hdig]

/-- Concrete run for the C4 witness: prior digest `d0` matches the fresh
digest, `force = false`. -/
def inpC4 : RunInput :=
  { fs := Fs.mk (FileState.jsonDict
      [("gist_id", "g0"), ("gist_url", "u0"), ("last_hash", "d0")]) none,
    ctorFail := false, tokenResult := some "tok", genResult := some ("tap x\nbrew y\n", "d0"),
    force := false, dryRun := false, sessionUnexpected := false,
    existsOutcome := .status 200, updateOutcome := .status 200,
    createOutcome := .response 201 "g9" "u9", saveOutcome := .ok,
    now := "2026-01-01T00:00:00Z" }

/-- Witness for C4 at the concrete run `inpC4`. -/
theorem C4_witness :
    (run_backup inpC4).exitCode = EXIT_SUCCESS ∧
    (run_backup inpC4).terminal = Terminal.skippedNoChange ∧
    (run_backup inpC4).fs = inpC4.fs ∧
    (run_backup inpC4).savedConfig = none :=
  C4_idempotent_skip inpC4 "tok" "tap x\nbrew y\n" "d0" rfl rfl rfl rfl rfl

/-- C6: the existence check never raises (it is a total `Bool`-valued
function of the request outcome) and returns `true` exactly when the GET
responds with status 200; it returns `false` for 404, for any other
status (401, 403, 5xx, ...), for a timeout and for any network error. -/
theorem C6_exists_never_raises :
    (∀ o, GistManager.gist_exists o = true ↔ o = GistManager.HttpOutcome.status 200) ∧
    GistManager.gist_exists (.status 404) = false ∧
    GistManager.gist_exists (.status 401) = false ∧
    GistManager.gist_exists (.status 403) = false ∧
    GistManager.gist_exists (.status 500) = false ∧
    GistManager.gist_exists .timeout = false ∧
    GistManager.gist_exists .netError = false := by
  refine ⟨fun o => ?_, by decide, by decide, by decide, by decide, rfl, rfl⟩
  cases o <;> simp [GistManager.gist_exists]

/-- Witness for C6 at the concrete outcome `status 200`. -/
theorem C6_witness : GistManager.gist_exists (.status 200) = true :=
  (C6_exists_never_raises.1 (.status 200)).mpr rfl

/-- Concrete run refuting C1 as stated: the prior state has no
`gist_id`, but its stored `last_hash` equals the fresh digest and
`force = false`. -/
def inpC1 : RunInput :=
  { fs := Fs.mk (FileState.jsonDict [("last_hash", "d1")]) none,
    ctorFail := false, tokenResult := some "t1", genResult := some ("brew a\n", "d1"),
    force := false, dryRun := false, sessionUnexpected := false,
    existsOutcome := .netError, updateOutcome := .netError,
    createOutcome := .response 201 "gX" "uX", saveOutcome := .ok, now := "T1" }

/-- C1 counterexample: at `inpC1` the prior state has no `remote_id`
(`gist_id`), yet the run does NOT reach CREATE — the digest-compare skip
fires first (`force = false`, digests equal), so the claimed "regardless
of the force flag and regardless of whether the prior content_digest
equals the freshly generated digest" is false on the code. -/
theorem C1_counterexample :
    dget (ConfigManager.load inpC1.fs.configFile) "gist_id" = none ∧
    inpC1.force = false ∧
    dget (ConfigManager.load inpC1.fs.configFile) "last_hash" = some "d1" ∧
    inpC1.genResult = some ("brew a\n", "d1") ∧
    ¬ ((run_backup inpC1).createCalled = true) ∧
    (run_backup inpC1).terminal = Terminal.skippedNoChange := by
  exact ⟨rfl, rfl, rfl, rfl, by decide, rfl⟩

/-- C1 amended: for every run that passes DIGEST COMPARE (`force = true`
or the stored digest differs from the fresh one), with `dry_run = false`,
whose prior state has no truthy `gist_id`, the run invokes the remote
create operation (and neither the existence check nor update); on success
(HTTP 201 and a successful state write) the resulting state has
`gist_id`, `gist_url` and `last_hash` all set to the new values. -/
theorem C1_first_run_creates (inp : RunInput) (tok c h : String)
    (hctor : inp.ctorFail = false)
    (htok : inp.tokenResult = some tok)
    (hgen : inp.genResult = some (c, h))
    (hid : truthy (dget (ConfigManager.load inp.fs.configFile) "gist_id") = false)
    (hgate : inp.force = true ∨ dget (ConfigManager.load inp.fs.configFile) "last_hash" ≠ some h)
    (hdry : inp.dryRun = false)
    (hsess : inp.sessionUnexpected = false) :
    (run_backup inp).createCalled = true ∧
    (run_backup inp).existsCalled = false ∧
    (run_backup inp).updateCalled = false ∧
    (∀ gid gurl, inp.createOutcome = GistManager.CreateOutcome.response 201 gid gurl →
      inp.saveOutcome = ConfigManager.SaveOutcome.ok →
      (run_backup inp).exitCode = EXIT_SUCCESS ∧
      (run_backup inp).terminal = Terminal.done gid gurl ∧
      dget (ConfigManager.load (run_backup inp).fs.configFile) "gist_id" = some gid ∧
      dget (ConfigManager.load (run_backup inp).fs.configFile) "gist_url" = some gurl ∧
      dget (ConfigManager.load (run_backup inp).fs.configFile) "last_hash" = some h) := by
  have hg := gate_false_of inp.force
    (dget (ConfigManager.load inp.fs.configFile) "last_hash") h hgate
  unfold run_backup runAfterLoad
  simp only [hctor, htok, hgen, hg, hdry, hsess, hid, Bool.false_eq_true, if_false]
  rcases hcr : GistManager.create_gist inp.createOutcome with _ | ⟨gid0, gurl0⟩
  · rw [createFlow_eq_none hcr]
    refine ⟨rfl, rfl, rfl, ?_⟩
    intro gid gurl hco _hso
    rw [hco] at hcr
    simp [GistManager.create_gist] at hcr
  · rw [createFlow_eq_some hcr]
    refine ⟨?_, ?_, ?_, ?_⟩
    · rw [persist_eq]; cases hs : inp.saveOutcome <;> rfl
    · rw [persist_eq]; cases hs : inp.saveOutcome <;> rfl
    · rw [persist_eq]; cases hs : inp.saveOutcome <;> rfl
    · intro gid gurl hco hso
      rw [hco] at hcr
      simp only [GistManager.create_gist] at hcr
      rw [if_pos (by decide)] at hcr
      obtain ⟨hgid, hgurl⟩ : gid = gid0 ∧ gurl = gurl0 := by
        simpa using hcr
      subst hgid; subst hgurl
      rw [persist_eq, hso]
      exact ⟨rfl, rfl,
        (dget_update4 (ConfigManager.load inp.fs.configFile) gid gurl h inp.now).1,
        (dget_update4 (ConfigManager.load inp.fs.configFile) gid gurl h inp.now).2.1,
        (dget_update4 (ConfigManager.load inp.fs.configFile) gid gurl h inp.now).2.2.1⟩

/-- Concrete run for the C1 witness: empty prior state, force off,
digest fresh, create succeeds with id `g1`. -/
def inpC1w : RunInput :=
  { fs := Fs.mk FileState.absent none,
    ctorFail := false, tokenResult := some "t1", genResult := some ("tap x\nbrew y\n", "d1"),
    force := false, dryRun := false, sessionUnexpected := false,
    existsOutcome := .netError, updateOutcome := .netError,
    createOutcome := .response 201 "g1" "https://gist.github.com/g1",
    saveOutcome := .ok, now := "T1" }

/-- Witness for the amended C1 at the concrete run `inpC1w`. -/
theorem C1_witness :
    (run_backup inpC1w).createCalled = true ∧
    (run_backup inpC1w).exitCode = EXIT_SUCCESS ∧
    dget (ConfigManager.load (run_backup inpC1w).fs.configFile) "gist_id" = some "g1" := by
  have := C1_first_run_creates inpC1w "t1" "tap x\nbrew y\n" "d1" rfl rfl rfl rfl
    (Or.inr (by decide)) rfl rfl
  have hsucc := this.2.2.2 "g1" "https://gist.github.com/g1" rfl rfl
  exact ⟨this.1, hsucc.1, hsucc.2.2.1⟩

/-- Concrete run refuting C2 as stated: prior state has a truthy
`gist_id`, the digest differs, and `dry_run = true`. -/
def inpC2 : RunInput :=
  { fs := Fs.mk (FileState.jsonDict
      [("gist_id", "gabc"), ("gist_url", "https://gist.github.com/gabc"), ("last_hash", "old")]) none,
    ctorFail := false, tokenResult := some "t2", genResult := some ("brew z\n", "new"),
    force := false, dryRun := true, sessionUnexpected := false,
    existsOutcome := .status 200, updateOutcome := .status 200,
    createOutcome := .response 201 "gnew" "unew", saveOutcome := .ok, now := "T2" }

/-- C2 counterexample: at `inpC2` the run passes DIGEST COMPARE and the
prior state has a `remote_id`, yet the existence check is NOT performed —
the dry-run gate fires before target resolution, refuting the claim that
the run "first resolves its target". -/
theorem C2_counterexample :
    truthy (dget (ConfigManager.load inpC2.fs.configFile) "gist_id") = true ∧
    inpC2.dryRun = true ∧
    dget (ConfigManager.load inpC2.fs.configFile) "last_hash" ≠ some "new" ∧
    inpC2.genResult = some ("brew z\n", "new") ∧
    ¬ ((run_backup inpC2).existsCalled = true) ∧
    (run_backup inpC2).exitCode = EXIT_SUCCESS := by
  exact ⟨rfl, rfl, by decide, rfl, by decide, rfl⟩

/-- C2 amended: for every run with `dry_run = true` that passes DIGEST
COMPARE (`force = true` or digests differ), the run terminates at
SKIPPED(dry-run) with exit code 0 and no state persisted — but it does so
immediately after DIGEST COMPARE, before target resolution: no existence
check, no create and no update is performed. -/
theorem C2_dry_run_gate (inp : RunInput) (tok c h : String)
    (hctor : inp.ctorFail = false)
    (htok : inp.tokenResult = some tok)
    (hgen : inp.genResult = some (c, h))
    (hgate : inp.force = true ∨ dget (ConfigManager.load inp.fs.configFile) "last_hash" ≠ some h)
    (hdry : inp.dryRun = true) :
    (run_backup inp).exitCode = EXIT_SUCCESS ∧
    (run_backup inp).terminal = Terminal.skippedDryRun ∧
    (run_backup inp).fs = inp.fs ∧
    (run_backup inp).existsCalled = false ∧
    (run_backup inp).updateCalled = false ∧
    (run_backup inp).createCalled = false ∧
    (run_backup inp).savedConfig = none := by
  have hg := gate_false_of inp.force
    (dget (ConfigManager.load inp.fs.configFile) "last_hash") h hgate
  unfold run_backup runAfterLoad
  simp [hctor, htok, hgen, hg, hdry]

/-- Concrete run for the C2 witness: same prior state as `inpC2`, flags
identical. -/
def inpC2w : RunInput :=
  { fs := Fs.mk (FileState.jsonDict [("gist_id", "gw"), ("last_hash", "old")]) none,
    ctorFail := false, tokenResult := some "t2", genResult := some ("brew z\n", "new"),
    force := false, dryRun := true, sessionUnexpected := false,
    existsOutcome := .status 200, updateOutcome := .status 200,
    createOutcome := .response 201 "gnew" "unew", saveOutcome := .ok, now := "T2" }

/-- Witness for the amended C2 at the concrete run `inpC2w`. -/
theorem C2_witness :
    (run_backup inpC2w).exitCode = EXIT_SUCCESS ∧
    (run_backup inpC2w).terminal = Terminal.skippedDryRun ∧
    (run_backup inpC2w).fs = inpC2w.fs ∧
    (run_backup inpC2w).existsCalled = false := by
  have := C2_dry_run_gate inpC2w "t2" "brew z\n" "new" rfl rfl rfl
    (Or.inr (by decide)) rfl
  exact ⟨this.1, this.2.1, this.2.2.1, this.2.2.2.1⟩

/-- C5: for every run whose prior state has `gist_id = X` (truthy) and
whose existence check returns `false`, with `dry_run = false` and past
DIGEST COMPARE, the run performs the existence check and then invokes
CREATE (never UPDATE) — the stale reference does not fail the run — and
on success persists the freshly created id in place of `X`. -/
theorem C5_stale_reference_recovers (inp : RunInput) (tok c h gX : String)
    (hctor : inp.ctorFail = false)
    (htok : inp.tokenResult = some tok)
    (hgen : inp.genResult = some (c, h))
    (hid : dget (ConfigManager.load inp.fs.configFile) "gist_id" = some gX)
    (hXne : gX ≠ "")
    (hex : GistManager.gist_exists inp.existsOutcome = false)
    (hgate : inp.force = true ∨ dget (ConfigManager.load inp.fs.configFile) "last_hash" ≠ some h)
    (hdry : inp.dryRun = false)
    (hsess : inp.sessionUnexpected = false) :
    (run_backup inp).existsCalled = true ∧
    (run_backup inp).createCalled = true ∧
    (run_backup inp).updateCalled = false ∧
    (∀ nid nurl, inp.createOutcome = GistManager.CreateOutcome.response 201 nid nurl →
      inp.saveOutcome = ConfigManager.SaveOutcome.ok →
      (run_backup inp).exitCode = EXIT_SUCCESS ∧
      (run_backup inp).terminal = Terminal.done nid nurl ∧
      dget (ConfigManager.load (run_backup inp).fs.configFile) "gist_id" = some nid) := by
  have hg := gate_false_of inp.force
    (dget (ConfigManager.load inp.fs.configFile) "last_hash") h hgate
  have htr : truthy (dget (ConfigManager.load inp.fs.configFile) "gist_id") = true := by
    rw [hid]
    simpa [truthy] using hXne
  unfold run_backup runAfterLoad
  simp only [hctor, htok, hgen, hg, hdry, hsess, htr, hex,
    Bool.false_eq_true, if_false, if_true]
  rcases hcr : GistManager.create_gist inp.createOutcome with _ | ⟨gid0, gurl0⟩
  · rw [createFlow_eq_none hcr]
    refine ⟨rfl, rfl, rfl, ?_⟩
    intro nid nurl hco _hso
    rw [hco] at hcr
    simp [GistManager.create_gist] at hcr
  · rw [createFlow_eq_some hcr]
    refine ⟨?_, ?_, ?_, ?_⟩
    · rw [persist_eq]; cases hs : inp.saveOutcome <;> rfl
    · rw [persist_eq]; cases hs : inp.saveOutcome <;> rfl
    · rw [persist_eq]; cases hs : inp.saveOutcome <;> rfl
    · intro nid nurl hco hso
      rw [hco] at hcr
      simp only [GistManager.create_gist] at hcr
      rw [if_pos (by decide)] at hcr
      obtain ⟨hgid, hgurl⟩ : nid = gid0 ∧ nurl = gurl0 := by
        simpa using hcr
      subst hgid; subst hgurl
      rw [persist_eq, hso]
      exact ⟨rfl, rfl,
        (dget_update4 (ConfigManager.load inp.fs.configFile) nid nurl h inp.now).1⟩

/-- Concrete run for the C5 witness: prior id `gdead` whose GET returns
404, digest differs, create succeeds with fresh id `gfresh`. -/
def inpC5 : RunInput :=
  { fs := Fs.mk (FileState.jsonDict [("gist_id", "gdead"), ("last_hash", "old")]) none,
    ctorFail := false, tokenResult := some "t5", genResult := some ("brew q\n", "new5"),
    force := false, dryRun := false, sessionUnexpected := false,
    existsOutcome := .status 404, updateOutcome := .status 200,
    createOutcome := .response 201 "gfresh" "https://gist.github.com/gfresh",
    saveOutcome := .ok, now := "T5" }

/-- Witness for C5 at the concrete run `inpC5`. -/
theorem C5_witness :
    (run_backup inpC5).existsCalled = true ∧
    (run_backup inpC5).createCalled = true ∧
    (run_backup inpC5).updateCalled = false ∧
    (run_backup inpC5).exitCode = EXIT_SUCCESS ∧
    dget (ConfigManager.load (run_backup inpC5).fs.configFile) "gist_id" = some "gfresh" := by
  have := C5_stale_reference_recovers inpC5 "t5" "brew q\n" "new5" "gdead" rfl rfl rfl rfl
    (by decide) (by decide) (Or.inr (by decide)) rfl rfl
  have hsucc := this.2.2.2 "gfresh" "https://gist.github.com/gfresh" rfl rfl
  exact ⟨this.1, this.2.1, this.2.2.1, hsucc.1, hsucc.2.2⟩

theorem persist_exit (inp : RunInput) (gid gurl ch : String) (e u c : Bool) :
    (persist inp gid gurl ch e u c).exitCode =
      specExitCode (persist inp gid gurl ch e u c).terminal := by
  rw [persist_eq]
  cases hs : inp.saveOutcome <;> rfl

/-- Classification of every run: either it never reached the persist step
(then nothing was handed to `save` and the filesystem is untouched), or
its result is a persist outcome whose hash argument is the fresh digest. -/
theorem run_classify (inp : RunInput) :
    ((run_backup inp).savedConfig = none ∧ (run_backup inp).fs = inp.fs ∧
      (run_backup inp).exitCode = specExitCode (run_backup inp).terminal ∧
      ∀ gid gurl, (run_backup inp).terminal ≠ Terminal.done gid gurl) ∨
    (∃ gid gurl ch e u cc, run_backup inp = persist inp gid gurl ch e u cc ∧
      ∀ c h, inp.genResult = some (c, h) → ch = h) := by
  unfold run_backup runAfterLoad
  split
  · left; exact ⟨rfl, rfl, rfl, fun _ _ h => Terminal.noConfusion h⟩
  · split
    · left; exact ⟨rfl, rfl, rfl, fun _ _ h => Terminal.noConfusion h⟩
    · split
      · left; exact ⟨rfl, rfl, rfl, fun _ _ h => Terminal.noConfusion h⟩
      · rename_i content currentHash hgr
        split
        · left; exact ⟨rfl, rfl, rfl, fun _ _ h => Terminal.noConfusion h⟩
        · split
          · left; exact ⟨rfl, rfl, rfl, fun _ _ h => Terminal.noConfusion h⟩
          · split
            · left; exact ⟨rfl, rfl, rfl, fun _ _ h => Terminal.noConfusion h⟩
            · split
              · split
                · split
                  · right
                    refine ⟨_, _, currentHash, true, true, false, rfl, ?_⟩
                    intro c h hg
                    rw [hg] at hgr
                    have hh : c = content ∧ h = currentHash := by simpa using hgr
                    exact hh.2.symm
                  · left; exact ⟨rfl, rfl, rfl, fun _ _ h => Terminal.noConfusion h⟩
                · rcases hcr : GistManager.create_gist inp.createOutcome with _ | ⟨gid0, gurl0⟩
                  · rw [createFlow_eq_none hcr]
                    left; exact ⟨rfl, rfl, rfl, fun _ _ h => Terminal.noConfusion h⟩
                  · rw [createFlow_eq_some hcr]
                    right
                    refine ⟨gid0, gurl0, currentHash, true, false, true, rfl, ?_⟩
                    intro c h hg
                    rw [hg] at hgr
                    have hh : c = content ∧ h = currentHash := by simpa using hgr
                    exact hh.2.symm
              · rcases hcr : GistManager.create_gist inp.createOutcome with _ | ⟨gid0, gurl0⟩
                · rw [createFlow_eq_none hcr]
                  left; exact ⟨rfl, rfl, rfl, fun _ _ h => Terminal.noConfusion h⟩
                · rw [createFlow_eq_some hcr]
                  right
                  refine ⟨gid0, gurl0, currentHash, false, false, true, rfl, ?_⟩
                  intro c h hg
                  rw [hg] at hgr
                  have hh : c = content ∧ h = currentHash := by simpa using hgr
                  exact hh.2.symm

/-- A persist step that ended at the `done` terminal succeeded: its save
outcome was `ok` and its whole result is determined. -/
theorem persist_done_eq (inp : RunInput) (gid0 gurl0 ch : String) (e u c : Bool)
    (gid gurl : String)
    (hdone : (persist inp gid0 gurl0 ch e u c).terminal = Terminal.done gid gurl) :
    gid0 = gid ∧ gurl0 = gurl ∧ inp.saveOutcome = ConfigManager.SaveOutcome.ok ∧
    persist inp gid0 gurl0 ch e u c =
      { exitCode := EXIT_SUCCESS, terminal := Terminal.done gid gurl,
        fs := Fs.mk (FileState.jsonDict (dictUpdate (ConfigManager.load inp.fs.configFile)
          (backupKwargs gid gurl ch inp.now))) none,
        existsCalled := e, updateCalled := u, createCalled := c,
        savedConfig := some (dictUpdate (ConfigManager.load inp.fs.configFile)
          (backupKwargs gid gurl ch inp.now)) } := by
  rw [persist_eq] at hdone ⊢
  cases hs : inp.saveOutcome <;> rw [hs] at hdone
  case ok =>
    obtain ⟨h1, h2⟩ : gid0 = gid ∧ gurl0 = gurl := by simpa using hdone
    subst h1; subst h2
    exact ⟨rfl, rfl, rfl, rfl⟩
  all_goals simp at hdone

/-- Every run that ends at `done gid gurl` persisted successfully: the
resulting filesystem holds exactly the prior record merged with the four
new keys, and the exit code is 0. -/
theorem run_done_eq (inp : RunInput) (c h gid gurl : String)
    (hgen : inp.genResult = some (c, h))
    (hdone : (run_backup inp).terminal = Terminal.done gid gurl) :
    (run_backup inp).fs = Fs.mk (FileState.jsonDict (dictUpdate
      (ConfigManager.load inp.fs.configFile) (backupKwargs gid gurl h inp.now))) none ∧
    (run_backup inp).exitCode = EXIT_SUCCESS ∧
    inp.saveOutcome = ConfigManager.SaveOutcome.ok := by
  rcases run_classify inp with ⟨_, _, _, hnd⟩ | ⟨gid1, gurl1, ch, e, u, cc, heq, hch⟩
  · exact absurd hdone (hnd gid gurl)
  · rw [heq] at hdone ⊢
    have hh := hch c h hgen
    rw [hh] at hdone ⊢
    obtain ⟨_h1, _h2, hs, hkey⟩ := persist_done_eq inp gid1 gurl1 h e u cc gid gurl hdone
    rw [hkey]
    exact ⟨rfl, rfl, hs⟩

/-- Concrete run refuting C3 as stated: the prior state file holds an
extra key `extra`, a create run succeeds, and the extra key survives the
write. -/
def inpC3 : RunInput :=
  { fs := Fs.mk (FileState.jsonDict [("extra", "v")]) none,
    ctorFail := false, tokenResult := some "t3", genResult := some ("brew e\n", "d3"),
    force := false, dryRun := false, sessionUnexpected := false,
    existsOutcome := .netError, updateOutcome := .netError,
    createOutcome := .response 201 "g3" "u3", saveOutcome := .ok, now := "T3" }

/-- C3 counterexample: at `inpC3` the run succeeds (terminal `done`), yet
the persisted record is NOT the four-key record alone — the prior key
`extra` survives, so the write is a field-merge, not a wholesale
replacement. -/
theorem C3_counterexample :
    (run_backup inpC3).terminal = Terminal.done "g3" "u3" ∧
    dget (ConfigManager.load inpC3.fs.configFile) "extra" = some "v" ∧
    dget (ConfigManager.load (run_backup inpC3).fs.configFile) "extra" = some "v" ∧
    ¬ ((run_backup inpC3).fs.configFile =
        FileState.jsonDict (backupKwargs "g3" "u3" "d3" "T3")) := by
  exact ⟨rfl, rfl, by decide, by decide⟩

/-- C3 amended: on every successful create or update run the persisted
record is the prior record (as re-read from disk) merged with the four
keys `gist_id`, `gist_url`, `last_hash` (= the new digest) and
`last_backup` — the four keys carry the new values, and keys outside
these four survive the write unchanged. -/
theorem C3_persist_merges (inp : RunInput) (c h gid gurl : String)
    (hgen : inp.genResult = some (c, h))
    (hdone : (run_backup inp).terminal = Terminal.done gid gurl) :
    (run_backup inp).fs = Fs.mk (FileState.jsonDict (dictUpdate
      (ConfigManager.load inp.fs.configFile) (backupKwargs gid gurl h inp.now))) none ∧
    dget (ConfigManager.load (run_backup inp).fs.configFile) "gist_id" = some gid ∧
    dget (ConfigManager.load (run_backup inp).fs.configFile) "gist_url" = some gurl ∧
    dget (ConfigManager.load (run_backup inp).fs.configFile) "last_hash" = some h ∧
    dget (ConfigManager.load (run_backup inp).fs.configFile) "last_backup" = some inp.now ∧
    (∀ k, (k == "gist_id") = false → (k == "gist_url") = false →
      (k == "last_hash") = false → (k == "last_backup") = false →
      dget (ConfigManager.load (run_backup inp).fs.configFile) k =
        dget (ConfigManager.load inp.fs.configFile) k) := by
  obtain ⟨hfs, _hexit, _hs⟩ := run_done_eq inp c h gid gurl hgen hdone
  rw [hfs]
  refine ⟨rfl, ?_, ?_, ?_, ?_, ?_⟩
  · exact (dget_update4 (ConfigManager.load inp.fs.configFile) gid gurl h inp.now).1
  · exact (dget_update4 (ConfigManager.load inp.fs.configFile) gid gurl h inp.now).2.1
  · exact (dget_update4 (ConfigManager.load inp.fs.configFile) gid gurl h inp.now).2.2.1
  · exact (dget_update4 (ConfigManager.load inp.fs.configFile) gid gurl h inp.now).2.2.2
  · intro k h1 h2 h3 h4
    exact dget_update4_other (ConfigManager.load inp.fs.configFile) gid gurl h inp.now k h1 h2 h3 h4

/-- Witness for the amended C3 at the concrete run `inpC3`: the four keys
get the new values and the extra key keeps its prior value. -/
theorem C3_witness :
    (run_backup inpC3).fs = Fs.mk (FileState.jsonDict (dictUpdate
      (ConfigManager.load inpC3.fs.configFile) (backupKwargs "g3" "u3" "d3" inpC3.now))) none ∧
    dget (ConfigManager.load (run_backup inpC3).fs.configFile) "gist_id" = some "g3" ∧
    dget (ConfigManager.load (run_backup inpC3).fs.configFile) "extra" =
      dget (ConfigManager.load inpC3.fs.configFile) "extra" := by
  have hm := C3_persist_merges inpC3 "brew e\n" "d3" "g3" "u3" rfl rfl
  exact ⟨hm.1, hm.2.1, hm.2.2.2.2.2 "extra" (by decide) (by decide) (by decide) (by decide)⟩

/-- Concrete run refuting the frame part of C7: the remote create
succeeds, the state write reaches the atomic rename, and only the
following `os.chmod` raises — the run exits 4, but the config file is no
longer "the original prior file unchanged or absent as before": the
complete new record has already been renamed into place. -/
def inpC7 : RunInput :=
  { fs := Fs.mk FileState.absent none,
    ctorFail := false, tokenResult := some "t7", genResult := some ("brew w\n", "d7"),
    force := false, dryRun := false, sessionUnexpected := false,
    existsOutcome := .netError, updateOutcome := .netError,
    createOutcome := .response 201 "g7" "u7", saveOutcome := .chmodFail, now := "T7" }

/-- C7 counterexample: at `inpC7` the remote mutation succeeded and the
durable-state write failed, the exit code is 4 as claimed, but the state
file is neither the original prior file nor absent as before — the rename
over the target DID happen before the failure. -/
theorem C7_counterexample :
    (run_backup inpC7).savedConfig = some (backupKwargs "g7" "u7" "d7" "T7") ∧
    (run_backup inpC7).exitCode = EXIT_CONFIG_ERROR ∧
    inpC7.fs.configFile = FileState.absent ∧
    ¬ ((run_backup inpC7).fs.configFile = FileState.absent) := by
  exact ⟨by decide, rfl, rfl, by decide⟩

/-- C7 amended: if the remote create or update succeeds (the persist step
is reached, so `savedConfig` records the merged record handed to `save`)
but the durable-state write fails, the run exits with the local-state
code 4 — never the remote-API code 3 — and the state file on disk is
either untouched (directory/write/rename failure, with the temporary file
removed in the write/rename cases) or, when the failure occurs only after
the atomic rename (at the `os.chmod` call), the complete merged new
record; never a partial or corrupt record. -/
theorem C7_persist_failure_isolated (inp : RunInput) (cfg : Config)
    (hsv : (run_backup inp).savedConfig = some cfg)
    (hfl : inp.saveOutcome ≠ ConfigManager.SaveOutcome.ok) :
    (run_backup inp).exitCode = EXIT_CONFIG_ERROR ∧
    (run_backup inp).exitCode ≠ EXIT_API_ERROR ∧
    (run_backup inp).terminal = Terminal.failedState ∧
    ((inp.saveOutcome = ConfigManager.SaveOutcome.dirFail ∧ (run_backup inp).fs = inp.fs) ∨
     ((run_backup inp).fs = Fs.mk inp.fs.configFile none) ∨
     (inp.saveOutcome = ConfigManager.SaveOutcome.chmodFail ∧
       (run_backup inp).fs = Fs.mk (FileState.jsonDict cfg) none)) := by
  rcases run_classify inp with ⟨hnone, _, _, _⟩ | ⟨gid, gurl, ch, e, u, cc, heq, _⟩
  · rw [hnone] at hsv
    exact absurd hsv (by simp)
  · rw [heq] at hsv ⊢
    rw [persist_eq] at hsv ⊢
    cases hs : inp.saveOutcome <;> rw [hs] at hsv
    case ok => exact absurd hs hfl
    case dirFail =>
      have hcfg : dictUpdate (ConfigManager.load inp.fs.configFile)
          (backupKwargs gid gurl ch inp.now) = cfg := by simpa using hsv
      exact ⟨rfl, (by decide : EXIT_CONFIG_ERROR ≠ EXIT_API_ERROR), rfl, Or.inl ⟨rfl, rfl⟩⟩
    case writeFail =>
      exact ⟨rfl, (by decide : EXIT_CONFIG_ERROR ≠ EXIT_API_ERROR), rfl, Or.inr (Or.inl rfl)⟩
    case renameFail =>
      exact ⟨rfl, (by decide : EXIT_CONFIG_ERROR ≠ EXIT_API_ERROR), rfl, Or.inr (Or.inl rfl)⟩
    case chmodFail =>
      have hcfg : dictUpdate (ConfigManager.load inp.fs.configFile)
          (backupKwargs gid gurl ch inp.now) = cfg := by simpa using hsv
      refine ⟨rfl, (by decide : EXIT_CONFIG_ERROR ≠ EXIT_API_ERROR), rfl, Or.inr (Or.inr ⟨rfl, ?_⟩)⟩
      rw [← hcfg]

/-- Concrete run for the C7 witness: remote update succeeds, the temp
file cannot be written. -/
def inpC7w : RunInput :=
  { fs := Fs.mk (FileState.jsonDict [("gist_id", "g7w"), ("gist_url", "u7w"), ("last_hash", "old7")]) none,
    ctorFail := false, tokenResult := some "t7", genResult := some ("brew w\n", "new7"),
    force := false, dryRun := false, sessionUnexpected := false,
    existsOutcome := .status 200, updateOutcome := .status 200,
    createOutcome := .response 201 "gz" "uz", saveOutcome := .writeFail, now := "T7w" }

/-- Witness for the amended C7 at the concrete run `inpC7w`. -/
theorem C7_witness :
    (run_backup inpC7w).exitCode = EXIT_CONFIG_ERROR ∧
    (run_backup inpC7w).exitCode ≠ EXIT_API_ERROR ∧
    (run_backup inpC7w).terminal = Terminal.failedState ∧
    ((inpC7w.saveOutcome = ConfigManager.SaveOutcome.dirFail ∧ (run_backup inpC7w).fs = inpC7w.fs) ∨
     ((run_backup inpC7w).fs = Fs.mk inpC7w.fs.configFile none) ∨
     (inpC7w.saveOutcome = ConfigManager.SaveOutcome.chmodFail ∧
       (run_backup inpC7w).fs = Fs.mk (FileState.jsonDict
         (backupKwargs "g7w" "u7w" "new7" "T7w")) none)) :=
  C7_persist_failure_isolated inpC7w
    (dictUpdate (ConfigManager.load inpC7w.fs.configFile) (backupKwargs "g7w" "u7w" "new7" "T7w"))
    (by decide) (by decide)

/-- Concrete run refuting C8 as stated: the update succeeds remotely, the
state write fails at the post-rename `os.chmod`, so the run ends in a
failure terminal (exit 4) with the State Store content changed. -/
def inpC8 : RunInput :=
  { fs := Fs.mk (FileState.jsonDict [("gist_id", "g8"), ("gist_url", "u8"), ("last_hash", "old8")]) none,
    ctorFail := false, tokenResult := some "t8", genResult := some ("brew v\n", "new8"),
    force := false, dryRun := false, sessionUnexpected := false,
    existsOutcome := .status 200, updateOutcome := .status 200,
    createOutcome := .response 201 "g9" "u9", saveOutcome := .chmodFail, now := "T8" }

/-- C8 counterexample: at `inpC8` the run ends in a failure terminal, yet
the State Store content after the run differs from before it. -/
theorem C8_counterexample :
    (run_backup inpC8).exitCode ≠ EXIT_SUCCESS ∧
    ¬ ((run_backup inpC8).fs.configFile = inpC8.fs.configFile) := by
  exact ⟨by decide, by decide⟩

/-- C8 amended: every run ending in a failure terminal leaves the State
Store content unchanged, with one exception: a state-error terminal whose
durable write failed only after the atomic rename (at `os.chmod`), in
which case the complete merged new record — never a partial one — has
replaced the prior file. -/
theorem C8_failures_leave_state (inp : RunInput)
    (hfail : (run_backup inp).exitCode ≠ EXIT_SUCCESS) :
    (run_backup inp).fs.configFile = inp.fs.configFile ∨
    (inp.saveOutcome = ConfigManager.SaveOutcome.chmodFail ∧
      (run_backup inp).terminal = Terminal.failedState ∧
      ∃ cfg, (run_backup inp).savedConfig = some cfg ∧
        (run_backup inp).fs = Fs.mk (FileState.jsonDict cfg) none) := by
  rcases run_classify inp with ⟨_, hfs, _, _⟩ | ⟨gid, gurl, ch, e, u, cc, heq, _⟩
  · rw [hfs]
    exact Or.inl rfl
  · rw [heq] at hfail ⊢
    rw [persist_eq] at hfail ⊢
    cases hs : inp.saveOutcome <;> rw [hs] at hfail
    case ok => exact absurd rfl hfail
    case dirFail => exact Or.inl rfl
    case writeFail => exact Or.inl rfl
    case renameFail => exact Or.inl rfl
    case chmodFail =>
      exact Or.inr ⟨rfl, rfl,
        dictUpdate (ConfigManager.load inp.fs.configFile) (backupKwargs gid gurl ch inp.now),
        rfl, rfl⟩

/-- Concrete run for the C8 witness: authentication fails, nothing else
happens, the State Store is untouched. -/
def inpC8w : RunInput :=
  { fs := Fs.mk (FileState.jsonDict [("gist_id", "g8w")]) none,
    ctorFail := false, tokenResult := none, genResult := some ("brew v\n", "new8w"),
    force := false, dryRun := false, sessionUnexpected := false,
    existsOutcome := .status 200, updateOutcome := .status 200,
    createOutcome := .response 201 "ga" "ua", saveOutcome := .ok, now := "T8w" }

/-- Witness for the amended C8 at the concrete run `inpC8w`. -/
theorem C8_witness :
    (run_backup inpC8w).fs.configFile = inpC8w.fs.configFile ∨
    (inpC8w.saveOutcome = ConfigManager.SaveOutcome.chmodFail ∧
      (run_backup inpC8w).terminal = Terminal.failedState ∧
      ∃ cfg, (run_backup inpC8w).savedConfig = some cfg ∧
        (run_backup inpC8w).fs = Fs.mk (FileState.jsonDict cfg) none) :=
  C8_failures_leave_state inpC8w (by decide)

/-- C9: the exit code of every run is exactly the code the spec assigns to its
terminal: 0 for the success terminals (DONE and both SKIPPED forms), 1
for an authentication failure, 2 for a generation failure, 3 for a remote
create/update failure, 4 for a durable-state failure, 99 for an
unexpected error — each failure kind maps to exactly one exit code. -/
theorem C9_exit_codes (inp : RunInput) :
    (run_backup inp).exitCode = specExitCode (run_backup inp).terminal ∧
    specExitCode Terminal.skippedNoChange = EXIT_SUCCESS ∧
    specExitCode Terminal.skippedDryRun = EXIT_SUCCESS ∧
    (∀ gid gurl, specExitCode (Terminal.done gid gurl) = EXIT_SUCCESS) ∧
    specExitCode Terminal.failedAuth = EXIT_AUTH_ERROR ∧
    specExitCode Terminal.failedGen = EXIT_BREW_ERROR ∧
    specExitCode Terminal.failedApi = EXIT_API_ERROR ∧
    specExitCode Terminal.failedState = EXIT_CONFIG_ERROR ∧
    specExitCode Terminal.failedUnexpected = EXIT_UNKNOWN_ERROR := by
  refine ⟨?_, rfl, rfl, fun _ _ => rfl, rfl, rfl, rfl, rfl, rfl⟩
  rcases run_classify inp with ⟨_, _, hx, _⟩ | ⟨gid, gurl, ch, e, u, cc, heq, _⟩
  · exact hx
  · rw [heq]
    exact persist_exit inp gid gurl ch e u cc

/-- Observable equivalence of two run results: identical exit code,
terminal, remote-call pattern and saved record, and state files with
identical parsed content. -/
def ResultEquiv (r1 r2 : RunResult) : Prop :=
  r1.exitCode = r2.exitCode ∧ r1.terminal = r2.terminal ∧
  r1.existsCalled = r2.existsCalled ∧ r1.updateCalled = r2.updateCalled ∧
  r1.createCalled = r2.createCalled ∧ r1.savedConfig = r2.savedConfig ∧
  ConfigManager.load r1.fs.configFile = ConfigManager.load r2.fs.configFile

/-- The same run inputs with the prior state file replaced. -/
def withFile (inp : RunInput) (f : FileState) : RunInput :=
  { inp with fs := Fs.mk f inp.fs.tempFile }

theorem persist_load_congr (inp : RunInput) (f1 f2 : FileState)
    (hl : ConfigManager.load f1 = ConfigManager.load f2)
    (gid gurl ch : String) (e u c : Bool) :
    ResultEquiv (persist (withFile inp f1) gid gurl ch e u c)
      (persist (withFile inp f2) gid gurl ch e u c) := by
  rw [persist_eq, persist_eq]
  dsimp only [withFile]
  cases hs : inp.saveOutcome <;>
    exact ⟨rfl, rfl, rfl, rfl, rfl, by rw [hl], by rw [hl]⟩

theorem createFlow_load_congr (inp : RunInput) (f1 f2 : FileState)
    (hl : ConfigManager.load f1 = ConfigManager.load f2) (ch : String) (e : Bool) :
    ResultEquiv (createFlow (withFile inp f1) ch e)
      (createFlow (withFile inp f2) ch e) := by
  unfold createFlow
  dsimp only [withFile]
  rcases hcr : GistManager.create_gist inp.createOutcome with _ | ⟨gid0, gurl0⟩
  · exact ⟨rfl, rfl, rfl, rfl, rfl, rfl, hl⟩
  · exact persist_load_congr inp f1 f2 hl gid0 gurl0 ch e false true

/-- Two runs whose prior state files parse to the same record are
observably identical. -/
theorem run_load_congr (inp : RunInput) (f1 f2 : FileState)
    (hl : ConfigManager.load f1 = ConfigManager.load f2) :
    ResultEquiv (run_backup (withFile inp f1)) (run_backup (withFile inp f2)) := by
  unfold run_backup runAfterLoad
  dsimp only [withFile]
  rw [hl]
  cases hctor : inp.ctorFail
  case true => exact ⟨rfl, rfl, rfl, rfl, rfl, rfl, hl⟩
  case false =>
  cases htk : inp.tokenResult
  case none => exact ⟨rfl, rfl, rfl, rfl, rfl, rfl, hl⟩
  case some tok =>
  cases hgr : inp.genResult
  case none => exact ⟨rfl, rfl, rfl, rfl, rfl, rfl, hl⟩
  case some p =>
  obtain ⟨c0, h0⟩ := p
  dsimp only []
  cases hgt : (!inp.force && (dget (ConfigManager.load f2) "last_hash" == some h0))
  case true => exact ⟨rfl, rfl, rfl, rfl, rfl, rfl, hl⟩
  case false =>
  cases hdry : inp.dryRun
  case true => exact ⟨rfl, rfl, rfl, rfl, rfl, rfl, hl⟩
  case false =>
  cases hsess : inp.sessionUnexpected
  case true => exact ⟨rfl, rfl, rfl, rfl, rfl, rfl, hl⟩
  case false =>
  cases htr : truthy (dget (ConfigManager.load f2) "gist_id")
  case true =>
    cases hex : GistManager.gist_exists inp.existsOutcome
    case true =>
      cases hupd : GistManager.update_gist inp.updateOutcome
      case true => exact persist_load_congr inp f1 f2 hl _ _ _ _ _ _
      case false => exact ⟨rfl, rfl, rfl, rfl, rfl, rfl, hl⟩
    case false => exact createFlow_load_congr inp f1 f2 hl h0 true
  case false => exact createFlow_load_congr inp f1 f2 hl h0 false

/-- C10: loading the persisted state never raises and never fails the
run: a missing state file, a file of invalid JSON, and a file whose JSON
top-level value is not an object all load as the empty record, and a run
on such a prior file is observably identical to a run on an absent file
(same exit code, terminal, remote-call pattern, saved record and final
parsed state) — exactly a first run. -/
theorem C10_bad_state_like_first_run (inp : RunInput) (s : String) (bad : FileState)
    (hbad : bad = FileState.absent ∨ bad = FileState.invalidJson s ∨
      bad = FileState.jsonNonDict s) :
    ConfigManager.load bad = [] ∧
    ConfigManager.load FileState.absent = [] ∧
    ConfigManager.load (FileState.invalidJson s) = [] ∧
    ConfigManager.load (FileState.jsonNonDict s) = [] ∧
    dget (ConfigManager.load bad) "gist_id" = none ∧
    dget (ConfigManager.load bad) "last_hash" = none ∧
    ResultEquiv (run_backup (withFile inp bad)) (run_backup (withFile inp FileState.absent)) := by
  have hload : ConfigManager.load bad = [] := by
    rcases hbad with h | h | h <;> rw [h] <;> rfl
  refine ⟨hload, rfl, rfl, rfl, by rw [hload]; rfl, by rw [hload]; rfl, ?_⟩
  exact run_load_congr inp bad FileState.absent (by rw [hload]; rfl)

/-- Concrete run for the C10 witness: the prior state file holds text
that is not JSON. -/
def inpC10 : RunInput :=
  { fs := Fs.mk (FileState.invalidJson "this is not json") none,
    ctorFail := false, tokenResult := some "t10", genResult := some ("brew r\n", "d10"),
    force := false, dryRun := false, sessionUnexpected := false,
    existsOutcome := .status 200, updateOutcome := .status 200,
    createOutcome := .response 201 "g10" "u10", saveOutcome := .ok, now := "T10" }

/-- Witness for C10 at the concrete run `inpC10`. -/
theorem C10_witness :
    ConfigManager.load (FileState.invalidJson "this is not json") = [] ∧
    ResultEquiv (run_backup (withFile inpC10 (FileState.invalidJson "this is not json")))
      (run_backup (withFile inpC10 FileState.absent)) := by
  have hb := C10_bad_state_like_first_run inpC10 "this is not json"
    (FileState.invalidJson "this is not json") (Or.inr (Or.inl rfl))
  exact ⟨hb.1, hb.2.2.2.2.2.2⟩

end BrewfileBackup
